import Mathlib

/-!
Verification of the appointment-slot allocation and lifecycle engine of the
hospital management system.

The definitions below are a shallow embedding of the route handlers in
`app/routes/patient.py`, `app/routes/doctor.py` and `app/routes/admin.py`.
Dates are modelled as day indices (`Nat`), times of day as minutes since
midnight (`Nat`), and a combined date-time as `date * 1440 + time`
(minutes).  Statuses are the literal strings used by the code.  Each route
handler becomes a pure function from a database value (lists of rows) to
`Except E DB`; an early `return` with a flash error becomes `Except.error`,
and a successful `db.session.commit()` becomes `Except.ok` with the
updated database.
-/

-- Result equality is decidable, so counterexamples and witnesses can be
-- settled by evaluation.
deriving instance DecidableEq for Except

namespace HMS

/-- Row of the `appointments` table (`app/models.py`, class `Appointment`). -/
structure Appointment where
  id : Nat
  patient_id : Nat
  doctor_id : Nat
  appointment_date : Nat
  appointment_time : Nat
  status : String
  reason : String
  appointment_type : String
  priority : String
  created_at : Nat
  updated_at : Nat
deriving Repr, DecidableEq

/-- Row of the `doctor_availability` table (`app/models.py`, class
`DoctorAvailability`). -/
structure DoctorAvailability where
  id : Nat
  doctor_id : Nat
  available_date : Nat
  start_time : Nat
  end_time : Nat
  is_available : Bool
deriving Repr, DecidableEq

/-- Row of the `treatments` table (`app/models.py`, class `Treatment`). -/
structure Treatment where
  id : Nat
  appointment_id : Nat
  diagnosis : String
  prescription : String
  notes : String
  follow_up_required : Bool
  follow_up_date : Option Nat
deriving Repr, DecidableEq

/-- The relational store restricted to the tables the scheduling engine
touches. -/
structure DB where
  appointments : List Appointment
  availabilities : List DoctorAvailability
  treatments : List Treatment
deriving Repr, DecidableEq

/-- The ambient clock: `today` models `datetime.today().date()` (a day
index) and `now` models `datetime.now()` (in minutes). -/
structure Clock where
  today : Nat
  now : Nat
deriving Repr, DecidableEq

/-- `datetime.combine(date, time)` in minutes. -/
def combineDT (d t : Nat) : Nat := d * 1440 + t

/-- `Appointment.query.get(aid)`. -/
def findAppointment (db : DB) (aid : Nat) : Option Appointment :=
  db.appointments.find? (fun a => a.id == aid)

/-- Commit a mutation of the appointment row with id `aid`. -/
def updateAppointment (db : DB) (aid : Nat) (f : Appointment → Appointment) : DB :=
  { db with appointments := db.appointments.map (fun a => if a.id == aid then f a else a) }

/-- The availability query shared by booking and rescheduling
(`patient.py` lines 149-155 and 319-325): an open slot of the doctor on the
given date with `start_time <= time` and `end_time > time`. -/
def findAvailability (db : DB) (did d t : Nat) : Option DoctorAvailability :=
  db.availabilities.find? (fun a =>
    a.doctor_id == did && a.available_date == d &&
    decide (a.start_time ≤ t) && decide (t < a.end_time) && a.is_available)

/-- The booking conflict query (`patient.py` lines 161-166): an appointment
of the doctor at the exact date and time whose status is the literal string
`booked`. -/
def findBookedConflict (db : DB) (did d t : Nat) : Option Appointment :=
  db.appointments.find? (fun a =>
    a.doctor_id == did && a.appointment_date == d && a.appointment_time == t &&
    a.status == "booked")

/-- Failure modes of `book_appointment` (`patient.py`). -/
inductive BookError
  | doctorInactive
  | pastDate
  | noAvailability
  | slotTaken
deriving Repr, DecidableEq

/-- Failure modes of the patient `cancel_appointment` route (`patient.py`). -/
inductive CancelError
  | notFound
  | notOwner
  | onlyBooked
  | tooLateToCancel
deriving Repr, DecidableEq

/-- Failure modes of the patient `reschedule_appointment` route
(`patient.py`). -/
inductive RescheduleError
  | notFound
  | notOwner
  | onlyBooked
  | pastDate
  | noAvailability
  | slotTaken
deriving Repr, DecidableEq

/-- Failure modes of the doctor `complete_appointment` route (`doctor.py`). -/
inductive CompleteError
  | notFound
  | notAssignedDoctor
  | invalidStatus
  | missingDiagnosis
deriving Repr, DecidableEq

/-- Failure modes of the doctor `cancel_appointment` route (`doctor.py`). -/
inductive DoctorCancelError
  | notFound
  | notAssignedDoctor
  | invalidStatus
deriving Repr, DecidableEq

/-- Failure modes of the doctor `add_availability` route (`doctor.py`). -/
inductive AddSlotError
  | invalidRange
  | pastDate
  | overlap
deriving Repr, DecidableEq

/-- Failure mode of `confirm_appointment` and of the admin
`update_appointment_status` route: only a missing row. -/
inductive LookupError
  | notFound
deriving Repr, DecidableEq

/-- The statuses accepted by the doctor cancel and complete routes
(`doctor.py` lines 127 and 183). -/
def completableStatuses : List String := ["scheduled", "confirmed", "pending", "booked"]

/-- `book_appointment` (`patient.py` lines 124-184), POST branch.
`active` is `doctor.is_active` of the fetched doctor; `pid` is
`current_user.id`; `nid` is the id the store assigns to the new row. -/
def book_appointment (db : DB) (clk : Clock) (pid did : Nat) (active : Bool)
    (date_obj time_obj : Nat) (reason : String) (nid : Nat) : Except BookError DB :=
  if !active then .error .doctorInactive
  else if date_obj < clk.today then .error .pastDate
  else match findAvailability db did date_obj time_obj with
  | none => .error .noAvailability
  | some _ =>
    match findBookedConflict db did date_obj time_obj with
    | some _ => .error .slotTaken
    | none => .ok { db with appointments := db.appointments ++ [{
        id := nid, patient_id := pid, doctor_id := did,
        appointment_date := date_obj, appointment_time := time_obj,
        status := "booked", reason := reason,
        appointment_type := "consultation", priority := "routine",
        created_at := clk.now, updated_at := clk.now }] }

/-- Patient `cancel_appointment` (`patient.py` lines 236-264).  The time
guard is `appointment_datetime <= datetime.now() + timedelta(hours=2)`. -/
def cancel_appointment (db : DB) (clk : Clock) (uid aid : Nat) : Except CancelError DB :=
  match findAppointment db aid with
  | none => .error .notFound
  | some appt =>
    if appt.patient_id != uid then .error .notOwner
    else if appt.status != "booked" then .error .onlyBooked
    else if combineDT appt.appointment_date appt.appointment_time ≤ clk.now + 120 then
      .error .tooLateToCancel
    else .ok (updateAppointment db aid (fun a =>
      { a with status := "cancelled", updated_at := clk.now }))

/-- Patient `reschedule_appointment` (`patient.py` lines 269-371), POST
branch.  The conflict query excludes the appointment row itself
(`Appointment.id != appointment_id`, line 347). -/
def reschedule_appointment (db : DB) (clk : Clock) (uid aid : Nat)
    (new_date new_time : Nat) : Except RescheduleError DB :=
  match findAppointment db aid with
  | none => .error .notFound
  | some appt =>
    if appt.patient_id != uid then .error .notOwner
    else if appt.status != "booked" then .error .onlyBooked
    else if new_date < clk.today then .error .pastDate
    else match findAvailability db appt.doctor_id new_date new_time with
    | none => .error .noAvailability
    | some _ =>
      match db.appointments.find? (fun a =>
          a.doctor_id == appt.doctor_id && a.appointment_date == new_date &&
          a.appointment_time == new_time && a.status == "booked" && a.id != aid) with
      | some _ => .error .slotTaken
      | none => .ok (updateAppointment db aid (fun a =>
          { a with appointment_date := new_date, appointment_time := new_time,
                   updated_at := clk.now }))

/-- Doctor `complete_appointment` (`doctor.py` lines 119-166), POST branch.
A missing form field arrives as the empty string; `follow_up_date` is
stored only when both it and `follow_up_required` are set (line 152) and no
other check involves it. -/
def complete_appointment (db : DB) (clk : Clock) (uid aid : Nat)
    (diagnosis prescription notes : String)
    (follow_up_required : Bool) (follow_up_date : Option Nat)
    (tid : Nat) : Except CompleteError DB :=
  match findAppointment db aid with
  | none => .error .notFound
  | some appt =>
    if appt.doctor_id != uid then .error .notAssignedDoctor
    else if !(completableStatuses.contains appt.status) then .error .invalidStatus
    else if diagnosis == "" then .error .missingDiagnosis
    else
      .ok { updateAppointment db aid (fun a =>
              { a with status := "completed", updated_at := clk.now }) with
            treatments := db.treatments ++ [{
              id := tid, appointment_id := appt.id,
              diagnosis := diagnosis, prescription := prescription, notes := notes,
              follow_up_required := follow_up_required,
              follow_up_date := match follow_up_date, follow_up_required with
                | some d, true => some d
                | _, _ => none }] }

/-- Doctor `cancel_appointment` (`doctor.py` lines 175-198).  No time
window is checked. -/
def doctor_cancel_appointment (db : DB) (clk : Clock) (uid aid : Nat) :
    Except DoctorCancelError DB :=
  match findAppointment db aid with
  | none => .error .notFound
  | some appt =>
    if appt.doctor_id != uid then .error .notAssignedDoctor
    else if !(completableStatuses.contains appt.status) then .error .invalidStatus
    else .ok (updateAppointment db aid (fun a =>
      { a with status := "cancelled", updated_at := clk.now }))

/-- Doctor `confirm_appointment` (`doctor.py` lines 394-410).  The row is
fetched by id and assigned doctor; no status guard is applied before
setting `status = 'confirmed'`. -/
def confirm_appointment (db : DB) (uid aid : Nat) : Except LookupError DB :=
  match db.appointments.find? (fun a => a.id == aid && a.doctor_id == uid) with
  | none => .error .notFound
  | some _ => .ok (updateAppointment db aid (fun a => { a with status := "confirmed" }))

/-- Admin `update_appointment_status` (`admin.py` lines 454-467).  The
requested status is written with no guard on the current status. -/
def update_appointment_status (db : DB) (aid : Nat) (new_status : String) :
    Except LookupError DB :=
  match findAppointment db aid with
  | none => .error .notFound
  | some _ => .ok (updateAppointment db aid (fun a => { a with status := new_status }))

/-- The overlap test of `add_availability` (`doctor.py` lines 277-290):
the new interval `[s, e)` conflicts with the existing row `ex` when
`(ex.start_time <= s AND ex.end_time > s) OR
 (ex.start_time < e AND ex.end_time >= e)`. -/
def overlapsExisting (ex : DoctorAvailability) (s e : Nat) : Bool :=
  (decide (ex.start_time ≤ s) && decide (s < ex.end_time)) ||
  (decide (ex.start_time < e) && decide (e ≤ ex.end_time))

/-- Doctor `add_availability` (`doctor.py` lines 250-312). -/
def add_availability (db : DB) (today did : Nat) (date_obj s e : Nat) (nid : Nat) :
    Except AddSlotError DB :=
  if e ≤ s then .error .invalidRange
  else if date_obj < today then .error .pastDate
  else if db.availabilities.any (fun ex =>
      ex.doctor_id == did && ex.available_date == date_obj && overlapsExisting ex s e)
  then .error .overlap
  else .ok { db with availabilities := db.availabilities ++ [{
      id := nid, doctor_id := did, available_date := date_obj,
      start_time := s, end_time := e, is_available := true }] }

/-! ### Concrete example data used by counterexamples and witnesses -/

/-- An open availability slot of doctor 7 on day 10, 09:00 to 10:00
(minutes 540 to 600). -/
def exSlot : DoctorAvailability :=
  { id := 1, doctor_id := 7, available_date := 10, start_time := 540, end_time := 600,
    is_available := true }

/-- An appointment of patient 1 with doctor 7 on day 10 at 09:00, in the
given status. -/
def exAppt (st : String) : Appointment :=
  { id := 1, patient_id := 1, doctor_id := 7, appointment_date := 10,
    appointment_time := 540, status := st, reason := "checkup",
    appointment_type := "consultation", priority := "routine",
    created_at := 0, updated_at := 0 }

/-- A store holding `exSlot` and one appointment in the given status. -/
def exDB (st : String) : DB :=
  { appointments := [exAppt st], availabilities := [exSlot], treatments := [] }

/-- A clock on day 5, so day 10 lies in the future and far beyond the
2-hour cancellation window. -/
def exClock : Clock := { today := 5, now := 5 * 1440 }

/-! ### Helper lemmas -/

/-- The booking conflict query succeeds exactly when some stored
appointment occupies the triple with literal status `booked`. -/
theorem findBookedConflict_isSome_iff (db : DB) (did d t : Nat) :
    (findBookedConflict db did d t).isSome = true ↔
      ∃ a ∈ db.appointments, a.doctor_id = did ∧ a.appointment_date = d ∧
        a.appointment_time = t ∧ a.status = "booked" := by
  simp [findBookedConflict, List.find?_isSome, and_assoc]

/-! ### Claim C1 -/

/-- Claim C1 as stated is false: with a `confirmed` (hence non-cancelled)
appointment of doctor 7 occupying the triple (7, day 10, 09:00), booking
the very same triple does not fail with SlotTaken — it succeeds and a
second appointment row for the triple is created. -/
theorem C1_counterexample :
    (exAppt "confirmed").status ≠ "cancelled" ∧
    (exAppt "confirmed").doctor_id = 7 ∧
    (exAppt "confirmed").appointment_date = 10 ∧
    (exAppt "confirmed").appointment_time = 540 ∧
    (book_appointment (exDB "confirmed") exClock 2 7 true 10 540 "flu" 2).toOption.map
      (fun db => db.appointments.length) = some 2 := by
  decide

/-- Claim C1 (amended): booking fails with SlotTaken exactly when, the
earlier guards passing (active doctor, date not past, open availability
covering the time), some existing appointment occupies the triple with
status literally `booked`; appointments in any other non-cancelled status
(`confirmed`, `pending`, `scheduled`, `completed`) do not block a booking,
so the uniqueness invariant holds only against rows whose status is
`booked`. -/
theorem C1_amended_theorem (db : DB) (clk : Clock) (pid did : Nat) (active : Bool)
    (d t : Nat) (r : String) (nid : Nat) :
    book_appointment db clk pid did active d t r nid =
        Except.error BookError.slotTaken ↔
      active = true ∧ clk.today ≤ d ∧ (findAvailability db did d t).isSome = true ∧
      ∃ a ∈ db.appointments, a.doctor_id = did ∧ a.appointment_date = d ∧
        a.appointment_time = t ∧ a.status = "booked" := by
  rw [← findBookedConflict_isSome_iff]
  unfold book_appointment
  cases active with
  | false => simp
  | true =>
    simp only [Bool.not_true, Bool.false_eq_true, if_false, true_and]
    by_cases hd : d < clk.today
    · simp [hd]
    · rw [if_neg hd]
      cases hav : findAvailability db did d t with
      | none => simp [hav]
      | some av =>
        cases hc : findBookedConflict db did d t with
        | none => simp [hav, hc, Nat.not_lt.mp hd]
        | some c => simp [hav, hc, Nat.not_lt.mp hd]

/-! ### Claim C2 -/

/-- Claim C2 as stated is false: `confirm_appointment` applies no status
guard, so confirming an appointment whose status is `completed` (a
terminal state) does not fail — it succeeds and overwrites the status with
`confirmed`. -/
theorem C2_counterexample :
    (exAppt "completed").status = "completed" ∧
    (confirm_appointment (exDB "completed") 7 1).toOption.map
      (fun db => db.appointments.map (fun a => a.status)) = some ["confirmed"] := by
  decide

/-- Claim C2 (amended): for an appointment in a terminal status
(`completed` or `cancelled`), the four guarded routes — patient cancel,
patient reschedule, doctor cancel, doctor complete — all fail and leave
the store untouched; but `confirm_appointment` and the admin
`update_appointment_status` route carry no status guard and do change the
status of a terminal appointment. -/
theorem C2_amended_theorem (db : DB) (clk : Clock) (aid : Nat) (appt : Appointment)
    (nd nt tid : Nat) (diag p n : String) (fur : Bool) (fud : Option Nat)
    (hfind : findAppointment db aid = some appt)
    (hstatus : appt.status = "completed" ∨ appt.status = "cancelled") :
    cancel_appointment db clk appt.patient_id aid = Except.error CancelError.onlyBooked ∧
    reschedule_appointment db clk appt.patient_id aid nd nt =
      Except.error RescheduleError.onlyBooked ∧
    doctor_cancel_appointment db clk appt.doctor_id aid =
      Except.error DoctorCancelError.invalidStatus ∧
    complete_appointment db clk appt.doctor_id aid diag p n fur fud tid =
      Except.error CompleteError.invalidStatus := by
  have h1 : (appt.status != "booked") = true := by
    rcases hstatus with h | h <;> rw [h] <;> decide
  have h2 : completableStatuses.contains appt.status = false := by
    rcases hstatus with h | h <;> rw [h] <;> decide
  have h2' : appt.status ∉ completableStatuses := by
    rcases hstatus with h | h <;> rw [h] <;> decide
  refine ⟨?_, ?_, ?_, ?_⟩ <;>
    simp [cancel_appointment, reschedule_appointment, doctor_cancel_appointment,
      complete_appointment, hfind, h1, h2, h2']

/-- Witness for C2: a concrete completed appointment is rejected by all
four guarded routes. -/
theorem C2_amended_witness :
    cancel_appointment (exDB "completed") exClock 1 1 =
      Except.error CancelError.onlyBooked ∧
    reschedule_appointment (exDB "completed") exClock 1 1 10 540 =
      Except.error RescheduleError.onlyBooked ∧
    doctor_cancel_appointment (exDB "completed") exClock 7 1 =
      Except.error DoctorCancelError.invalidStatus ∧
    complete_appointment (exDB "completed") exClock 7 1 "flu" "" "" false none 1 =
      Except.error CompleteError.invalidStatus :=
  C2_amended_theorem (exDB "completed") exClock 1 (exAppt "completed")
    10 540 1 "flu" "" "" false none rfl (Or.inl rfl)

/-! ### Claim C3 -/

/-- Claim C3 as stated is false: the admin `update_appointment_status`
route moves a booked appointment straight to `completed` without creating
any Treatment row, so a completed appointment with zero treatments is
reachable. -/
theorem C3_counterexample :
    (exDB "booked").treatments.length = 0 ∧
    (update_appointment_status (exDB "booked") 1 "completed").toOption.map
      (fun db => (db.appointments.map (fun a => a.status), db.treatments.length)) =
      some (["completed"], 0) := by
  decide

/-- The Treatment row that `complete_appointment` inserts (`doctor.py`
lines 144-153). -/
def mkTreatment (tid apid : Nat) (diag p n : String) (fur : Bool)
    (fud : Option Nat) : Treatment :=
  { id := tid, appointment_id := apid, diagnosis := diag, prescription := p,
    notes := n, follow_up_required := fur,
    follow_up_date := match fud, fur with
      | some d, true => some d
      | _, _ => none }

/-- Shared shape lemma: a successful `complete_appointment` sets the
appointment status to `completed` and appends exactly one Treatment row
referencing it, in one step. -/
theorem complete_appointment_ok (db : DB) (clk : Clock) (aid tid : Nat)
    (appt : Appointment) (diag p n : String) (fur : Bool) (fud : Option Nat)
    (hfind : findAppointment db aid = some appt)
    (hst : completableStatuses.contains appt.status = true)
    (hd : diag ≠ "") :
    complete_appointment db clk appt.doctor_id aid diag p n fur fud tid =
      Except.ok (DB.mk
        (db.appointments.map (fun a =>
          if a.id == aid then { a with status := "completed", updated_at := clk.now } else a))
        db.availabilities
        (db.treatments ++ [mkTreatment tid appt.id diag p n fur fud])) := by
  have hd' : (diag == "") = false := beq_eq_false_iff_ne.mpr hd
  have hst' : appt.status ∈ completableStatuses := by simpa using hst
  simp [complete_appointment, hfind, hst', hd', updateAppointment, mkTreatment]

/-- Claim C3 (amended): the doctor `complete_appointment` route itself is
atomic — when it succeeds it simultaneously sets the status to `completed`
and appends exactly one Treatment row referencing the appointment; but the
global one-treatment-per-completed-appointment invariant fails because the
admin status route can mark an appointment `completed` with no Treatment
(see the counterexample), and `confirm_appointment` can move a completed
appointment back to `confirmed`, after which a second completion adds a
second Treatment. -/
theorem C3_amended_theorem (db : DB) (clk : Clock) (aid tid : Nat)
    (appt : Appointment) (diag p n : String) (fur : Bool) (fud : Option Nat)
    (hfind : findAppointment db aid = some appt)
    (hst : completableStatuses.contains appt.status = true)
    (hd : diag ≠ "") :
    complete_appointment db clk appt.doctor_id aid diag p n fur fud tid =
      Except.ok (DB.mk
        (db.appointments.map (fun a =>
          if a.id == aid then { a with status := "completed", updated_at := clk.now } else a))
        db.availabilities
        (db.treatments ++ [mkTreatment tid appt.id diag p n fur fud])) :=
  complete_appointment_ok db clk aid tid appt diag p n fur fud hfind hst hd

/-- Witness for C3: completing a concrete booked appointment yields the
completed status and exactly one Treatment row referencing it. -/
theorem C3_amended_witness :
    complete_appointment (exDB "booked") exClock 7 1 "flu" "rest" "ok" false none 9 =
      Except.ok (DB.mk
        ((exDB "booked").appointments.map (fun a =>
          if a.id == 1 then { a with status := "completed", updated_at := exClock.now } else a))
        (exDB "booked").availabilities
        ((exDB "booked").treatments ++ [mkTreatment 9 (exAppt "booked").id "flu" "rest" "ok" false none])) :=
  C3_amended_theorem (exDB "booked") exClock 1 9 (exAppt "booked")
    "flu" "rest" "ok" false none rfl (by decide) (by decide)

/-! ### Claim C4 -/

/-- The slot [600, 660) of doctor 7 on day 10. -/
def exSlot4 : DoctorAvailability :=
  { id := 1, doctor_id := 7, available_date := 10, start_time := 600,
    end_time := 660, is_available := true }

/-- A store whose only availability row is `exSlot4`. -/
def exDB4 : DB :=
  { appointments := [], availabilities := [exSlot4], treatments := [] }

/-- Claim C4 as stated is false: the interval [540, 720) strictly contains
the existing slot [600, 660) — they share every point of [600, 660) — yet
`add_availability` accepts it, because the code's test only looks for an
existing slot containing the new start or the new end. -/
theorem C4_counterexample :
    (540 < 660 ∧ 600 < 720) ∧
    (add_availability exDB4 5 7 10 540 720 2).toOption.map
      (fun db => db.availabilities.length) = some 2 := by
  decide

/-- Claim C4 (amended): `add_availability` fails with Overlap exactly when
(the range and past-date guards passing) some existing slot of that doctor
on that date contains the new start (start <= new.start < end) or the new
end (start < new.end <= end); a new interval that strictly contains an
existing slot is accepted even though the two overlap. -/
theorem C4_amended_theorem (db : DB) (today did d s e nid : Nat) :
    add_availability db today did d s e nid = Except.error AddSlotError.overlap ↔
      s < e ∧ today ≤ d ∧ ∃ ex ∈ db.availabilities, ex.doctor_id = did ∧
        ex.available_date = d ∧
        ((ex.start_time ≤ s ∧ s < ex.end_time) ∨ (ex.start_time < e ∧ e ≤ ex.end_time)) := by
  have hany : (db.availabilities.any (fun ex =>
      ex.doctor_id == did && ex.available_date == d && overlapsExisting ex s e)) = true ↔
      ∃ ex ∈ db.availabilities, ex.doctor_id = did ∧ ex.available_date = d ∧
        ((ex.start_time ≤ s ∧ s < ex.end_time) ∨ (ex.start_time < e ∧ e ≤ ex.end_time)) := by
    simp [List.any_eq_true, overlapsExisting, and_assoc]
  rw [← hany]
  unfold add_availability
  by_cases h1 : e ≤ s
  · simp [h1]
  · rw [if_neg h1]
    by_cases h2 : d < today
    · simp [h2]
    · rw [if_neg h2]
      by_cases h3 : (db.availabilities.any (fun ex =>
          ex.doctor_id == did && ex.available_date == d && overlapsExisting ex s e)) = true
      · simp [h3]
        omega
      · simp [h3]

/-! ### Claim C5 -/

/-- Claim C5 as stated is false: completing with diagnosis "flu",
follow-up required, and no follow-up date does not fail — there is no
FollowUpDateRequired check anywhere in the route.  The appointment becomes
`completed` and a Treatment row is created whose follow-up date is simply
left empty. -/
theorem C5_counterexample :
    (complete_appointment (exDB "booked") exClock 7 1 "flu" "" "" true none 1).toOption.map
      (fun db => (db.appointments.map (fun a => a.status),
        db.treatments.map (fun t => (t.appointment_id, t.follow_up_required, t.follow_up_date)))) =
      some (["completed"], [(1, true, none)]) := by
  decide

/-- Claim C5 (amended): a complete request with a non-empty diagnosis,
follow-up required, and no follow-up date succeeds: the appointment moves
to `completed` and exactly one Treatment row referencing it is created
with an empty follow-up date.  No FollowUpDateRequired failure exists. -/
theorem C5_amended_theorem (db : DB) (clk : Clock) (aid tid : Nat)
    (appt : Appointment) (diag p n : String)
    (hfind : findAppointment db aid = some appt)
    (hst : completableStatuses.contains appt.status = true)
    (hd : diag ≠ "") :
    complete_appointment db clk appt.doctor_id aid diag p n true none tid =
      Except.ok (DB.mk
        (db.appointments.map (fun a =>
          if a.id == aid then { a with status := "completed", updated_at := clk.now } else a))
        db.availabilities
        (db.treatments ++ [mkTreatment tid appt.id diag p n true none])) :=
  complete_appointment_ok db clk aid tid appt diag p n true none hfind hst hd

/-- Witness for C5: the spec's own scenario (diagnosis "flu", follow-up
required, no follow-up date) succeeds on a concrete booked appointment. -/
theorem C5_amended_witness :
    complete_appointment (exDB "booked") exClock 7 1 "flu" "" "" true none 1 =
      Except.ok (DB.mk
        ((exDB "booked").appointments.map (fun a =>
          if a.id == 1 then { a with status := "completed", updated_at := exClock.now } else a))
        (exDB "booked").availabilities
        ((exDB "booked").treatments ++ [mkTreatment 1 (exAppt "booked").id "flu" "" "" true none])) :=
  C5_amended_theorem (exDB "booked") exClock 1 1 (exAppt "booked") "flu" "" ""
    rfl (by decide) (by decide)

/-! ### Claim C6 -/

/-- Claim C6 as stated is false: for a `confirmed` appointment owned by
the patient — far more than 2 hours ahead, with the booking guards for its
own slot satisfied — both patient cancel and patient reschedule are
rejected, because each route demands the literal status `booked`. -/
theorem C6_counterexample :
    (exAppt "confirmed").status = "confirmed" ∧
    exClock.now + 120 < combineDT 10 540 ∧
    cancel_appointment (exDB "confirmed") exClock 1 1 =
      Except.error CancelError.onlyBooked ∧
    reschedule_appointment (exDB "confirmed") exClock 1 1 10 540 =
      Except.error RescheduleError.onlyBooked := by
  decide

/-- Claim C6 (amended): the patient cancel and reschedule routes accept
only appointments whose status is literally `booked`; a `confirmed`
appointment is rejected by both with the only-booked error, regardless of
the time remaining and of the guards against the new date and time. -/
theorem C6_amended_theorem (db : DB) (clk : Clock) (aid nd nt : Nat)
    (appt : Appointment)
    (hfind : findAppointment db aid = some appt)
    (hstatus : appt.status = "confirmed") :
    cancel_appointment db clk appt.patient_id aid =
      Except.error CancelError.onlyBooked ∧
    reschedule_appointment db clk appt.patient_id aid nd nt =
      Except.error RescheduleError.onlyBooked := by
  have h1 : (appt.status != "booked") = true := by rw [hstatus]; decide
  constructor <;> simp [cancel_appointment, reschedule_appointment, hfind, h1]

/-- Witness for C6: the concrete confirmed appointment is rejected by both
patient routes. -/
theorem C6_amended_witness :
    cancel_appointment (exDB "confirmed") exClock 1 1 =
      Except.error CancelError.onlyBooked ∧
    reschedule_appointment (exDB "confirmed") exClock 1 1 11 560 =
      Except.error RescheduleError.onlyBooked :=
  C6_amended_theorem (exDB "confirmed") exClock 1 11 560 (exAppt "confirmed") rfl rfl

/-! ### Claim C7 -/

/-- Claim C7: for a booked appointment owned by the calling patient,
patient cancel succeeds exactly when the current time is strictly more
than 2 hours (120 minutes) before the scheduled date-time and fails with
TooLateToCancel exactly otherwise, while cancel by the assigned doctor
carries no time restriction at all: it succeeds whatever the clock. -/
theorem C7_theorem (db : DB) (clk : Clock) (aid : Nat) (appt : Appointment)
    (hfind : findAppointment db aid = some appt)
    (hstatus : appt.status = "booked") :
    ((cancel_appointment db clk appt.patient_id aid).toOption.isSome = true ↔
      clk.now + 120 < combineDT appt.appointment_date appt.appointment_time) ∧
    (cancel_appointment db clk appt.patient_id aid =
        Except.error CancelError.tooLateToCancel ↔
      combineDT appt.appointment_date appt.appointment_time ≤ clk.now + 120) ∧
    (doctor_cancel_appointment db clk appt.doctor_id aid).toOption.isSome = true := by
  have h1 : (appt.status != "booked") = false := by rw [hstatus]; decide
  have h2 : appt.status ∈ completableStatuses := by rw [hstatus]; decide
  refine ⟨?_, ?_, ?_⟩
  · simp only [cancel_appointment, hfind, bne_self_eq_false, Bool.false_eq_true,
      if_false, h1]
    by_cases hle : combineDT appt.appointment_date appt.appointment_time ≤ clk.now + 120
    · simp [hle, Except.toOption]
    · simp [hle, Except.toOption]
      omega
  · simp only [cancel_appointment, hfind, bne_self_eq_false, Bool.false_eq_true,
      if_false, h1]
    by_cases hle : combineDT appt.appointment_date appt.appointment_time ≤ clk.now + 120
    · simp [hle]
    · simp [hle]
  · simp [doctor_cancel_appointment, hfind, h2, Except.toOption]

/-- Witness for C7: cancelling 121 minutes ahead succeeds, cancelling 119
minutes ahead fails with TooLateToCancel, and the assigned doctor cancels
1 minute ahead. -/
theorem C7_witness :
    (cancel_appointment (exDB "booked") (Clock.mk 10 14819) 1 1).toOption.isSome = true ∧
    cancel_appointment (exDB "booked") (Clock.mk 10 14821) 1 1 =
      Except.error CancelError.tooLateToCancel ∧
    (doctor_cancel_appointment (exDB "booked") (Clock.mk 10 14939) 7 1).toOption.isSome = true :=
  ⟨(C7_theorem (exDB "booked") (Clock.mk 10 14819) 1 (exAppt "booked") rfl rfl).1.mpr
      (by decide),
   ((C7_theorem (exDB "booked") (Clock.mk 10 14821) 1 (exAppt "booked") rfl rfl).2.1).mpr
      (by decide),
   (C7_theorem (exDB "booked") (Clock.mk 10 14939) 1 (exAppt "booked") rfl rfl).2.2⟩

/-! ### Claim C8 -/

/-- Claim C8: a complete request with an empty (missing) diagnosis on a
completable appointment of the assigned doctor fails with
MissingDiagnosis before any write: no new store state is produced, so the
appointment keeps its prior status and no Treatment row is created. -/
theorem C8_theorem (db : DB) (clk : Clock) (aid tid : Nat) (appt : Appointment)
    (p n : String) (fur : Bool) (fud : Option Nat)
    (hfind : findAppointment db aid = some appt)
    (hst : completableStatuses.contains appt.status = true) :
    complete_appointment db clk appt.doctor_id aid "" p n fur fud tid =
      Except.error CompleteError.missingDiagnosis := by
  have hst' : appt.status ∈ completableStatuses := by simpa using hst
  simp [complete_appointment, hfind, hst']

/-- Witness for C8: completing the concrete booked appointment with an
empty diagnosis fails with MissingDiagnosis. -/
theorem C8_witness :
    complete_appointment (exDB "booked") exClock 7 1 "" "rx" "nb" false none 3 =
      Except.error CompleteError.missingDiagnosis :=
  C8_theorem (exDB "booked") exClock 1 3 (exAppt "booked") "rx" "nb" false none
    rfl (by decide)

/-! ### Claim C9 -/

/-- Claim C9: rescheduling a booked appointment to its own current date
and time never fails with SlotTaken — the conflict query excludes the
appointment's own row, so the appointment does not collide with itself —
and, the past-date and availability guards holding for that date/time and
no distinct booked row occupying the triple, the reschedule succeeds. -/
theorem C9_theorem (db : DB) (clk : Clock) (aid : Nat) (appt : Appointment)
    (hfind : findAppointment db aid = some appt)
    (hstatus : appt.status = "booked")
    (hdate : clk.today ≤ appt.appointment_date)
    (havail : (findAvailability db appt.doctor_id appt.appointment_date
        appt.appointment_time).isSome = true)
    (hunique : ∀ b ∈ db.appointments, b.doctor_id = appt.doctor_id →
      b.appointment_date = appt.appointment_date →
      b.appointment_time = appt.appointment_time → b.status = "booked" → b.id = aid) :
    reschedule_appointment db clk appt.patient_id aid
        appt.appointment_date appt.appointment_time ≠
      Except.error RescheduleError.slotTaken ∧
    (reschedule_appointment db clk appt.patient_id aid
        appt.appointment_date appt.appointment_time).toOption.isSome = true := by
  have h1 : (appt.status != "booked") = false := by rw [hstatus]; decide
  have hd2 : ¬ (appt.appointment_date < clk.today) := by omega
  obtain ⟨av, hav⟩ := Option.isSome_iff_exists.mp havail
  have hnone : db.appointments.find? (fun a =>
      a.doctor_id == appt.doctor_id && a.appointment_date == appt.appointment_date &&
      a.appointment_time == appt.appointment_time && a.status == "booked" &&
      a.id != aid) = none := by
    rw [List.find?_eq_none]
    intro x hx hpx
    simp only [Bool.and_eq_true, beq_iff_eq, bne_iff_ne, ne_eq] at hpx
    exact hpx.2 (hunique x hx hpx.1.1.1.1 hpx.1.1.1.2 hpx.1.1.2 hpx.1.2)
  constructor <;>
    simp [reschedule_appointment, hfind, h1, hd2, hav, hnone, Except.toOption]

/-- Witness for C9: rescheduling the concrete booked appointment onto its
own (day 10, 09:00) slot succeeds and is not a SlotTaken failure. -/
theorem C9_witness :
    reschedule_appointment (exDB "booked") exClock 1 1 10 540 ≠
      Except.error RescheduleError.slotTaken ∧
    (reschedule_appointment (exDB "booked") exClock 1 1 10 540).toOption.isSome = true :=
  C9_theorem (exDB "booked") exClock 1 (exAppt "booked") rfl rfl (by decide)
    (by decide) (by decide)

/-! ### Claim C10 -/

/-- Claim C10: a successful patient reschedule rewrites only the
rescheduled row's date, time and updated-at fields — every other field of
that row, and every other appointment row, are preserved — and the
availability and treatment tables are untouched. -/
theorem C10_theorem (db : DB) (clk : Clock) (uid aid nd nt : Nat) (db' : DB)
    (h : reschedule_appointment db clk uid aid nd nt = Except.ok db') :
    db'.availabilities = db.availabilities ∧
    db'.treatments = db.treatments ∧
    db'.appointments = db.appointments.map (fun a =>
      if a.id == aid then { a with appointment_date := nd, appointment_time := nt, updated_at := clk.now } else a) := by
  unfold reschedule_appointment at h
  repeat' split at h
  all_goals try exact Except.noConfusion h
  injection h with h
  subst h
  exact ⟨rfl, rfl, rfl⟩

/-- The example appointment row after being rescheduled to 09:01. -/
def exRow10 : Appointment :=
  { exAppt "booked" with appointment_time := 541, updated_at := exClock.now }

/-- The store after rescheduling the example booked appointment. -/
def exDB10 : DB :=
  { appointments := [exRow10], availabilities := [exSlot], treatments := [] }

/-- Witness for C10: a concrete successful reschedule to (day 10, 09:01)
leaves the other tables and all other fields unchanged. -/
theorem C10_witness :
    exDB10.availabilities = (exDB "booked").availabilities ∧
    exDB10.treatments = (exDB "booked").treatments ∧
    exDB10.appointments = (exDB "booked").appointments.map (fun a =>
      if a.id == 1 then { a with appointment_date := 10, appointment_time := 541, updated_at := exClock.now } else a) :=
  C10_theorem (exDB "booked") exClock 1 1 10 541 exDB10 (by decide)

end HMS
